import Mathlib

/-!
Verification development for the `awesome-fiftyone` example scripts.

The repository has two Python source files:

* `datasets/cubes/__init__.py` — a FiftyOne dataset-importer plugin with two
  functions, `download_and_prepare` and `load_dataset`;
* `getting-started-coffee/training_notes.py` — a linear training script that
  downloads data, fine-tunes a segmentation model, saves a checkpoint, runs
  prediction and merges the predictions back into the dataset.

This file embeds those scripts shallowly: pure computations become Lean
functions over `String`/`List`, external library calls become explicit
`Except`-valued parameters, and Python's string operations (`in`, `endswith`,
`os.path.join`, dict comprehension) are translated faithfully below.
-/

/-- Boolean test that `pat` occurs at the head of `hay`, character by
character.  Building block for the Python string operations used by the
scripts. -/
def charsLead : List Char → List Char → Bool
  | [], _ => true
  | _ :: _, [] => false
  | a :: as, b :: bs => a == b && charsLead as bs

/-- Boolean test that `needle` occurs contiguously somewhere inside `hay`:
the translation of Python's `needle in hay` on strings. -/
def charsContain (needle : List Char) : List Char → Bool
  | [] => charsLead needle []
  | b :: bs => charsLead needle (b :: bs) || charsContain needle bs

/-- Python `needle in hay` for strings: substring containment. -/
def pyIn (needle hay : String) : Bool :=
  charsContain needle.data hay.data

/-- Python `s.endswith (pat)`: `pat` is a suffix of `s`. -/
def pyEndsWith (s pat : String) : Bool :=
  charsLead pat.data.reverse s.data.reverse

/-- Python `s.startswith (pat)`: `pat` occurs at the head of `s`. -/
def pyStartsWith (s pat : String) : Bool :=
  charsLead pat.data s.data

/-- Translation of `posixpath.join` for two arguments, as called by both
importer functions: if `b` is absolute the result is `b`; otherwise `b` is
appended to `a`, inserting a separator unless `a` is empty or already ends
with one. -/
def osPathJoin (a b : String) : String :=
  if pyStartsWith b "/" then b
  else if a == "" || pyEndsWith a "/" then a ++ b
  else a ++ "/" ++ b

/-- The `fiftyone.core.labels.Classification` label attached to a sample:
the importer only ever sets its `label` field. -/
structure Classification where
  label : String
deriving DecidableEq, Repr

/-- The `fiftyone.Sample` objects created by `load_dataset`: a `filepath`
plus a `ground_truth` classification. -/
structure Sample where
  filepath : String
  ground_truth : Classification
deriving DecidableEq, Repr

/-- The `fo.types` dataset-type value returned by `download_and_prepare`. -/
inductive DatasetType where
  | ImageClassificationDirectoryTree
deriving DecidableEq, Repr

/-- Everything `download_and_prepare` computes: `dataset_path` is the path it
passes to `os.makedirs`, and the remaining three fields are the triple it
returns. -/
structure PrepareResult where
  dataset_path : String
  dataset_type : DatasetType
  num_samples : Nat
  classes : List String
deriving DecidableEq, Repr

/-- Translation of `download_and_prepare (dataset_dir, split=None)` from
`datasets/cubes/__init__.py`.  Python's `if split:` is truthiness on the
optional string: `None` and the empty string both take the `else` branch. -/
def download_and_prepare (dataset_dir : String) (split : Option String) :
    PrepareResult :=
  let dataset_path :=
    match split with
    | some s => if s == "" then dataset_dir else osPathJoin dataset_dir s
    | none => dataset_dir
  { dataset_path := dataset_path
    dataset_type := DatasetType.ImageClassificationDirectoryTree
    num_samples := 188
    classes := ["abnormal", "normal"] }

/-- The extension test on line 51 of `datasets/cubes/__init__.py`:
`img_path.endswith (".jpg") or img_path.endswith (".png")`. -/
def isImageFile (img_path : String) : Bool :=
  pyEndsWith img_path ".jpg" || pyEndsWith img_path ".png"

/-- The sample constructed on lines 52-55 of `datasets/cubes/__init__.py`:
`filepath = os.path.join (dataset_dir, img_path)` and the label is
`"abnormal"` when `"abnormal" in img_path`, else `"normal"`. -/
def mkSample (dataset_dir img_path : String) : Sample :=
  { filepath := osPathJoin dataset_dir img_path
    ground_truth :=
      { label := if pyIn "abnormal" img_path then "abnormal" else "normal" } }

/-- Translation of the loop of `load_dataset` from
`datasets/cubes/__init__.py`: starting from `samples = []`, each entry of
the listing of `dataset_dir` that passes the extension test appends its
sample; the result is the list passed to `dataset.add_samples`.  The
`split` parameter is accepted but, as in the source, never used. -/
def load_dataset (dataset_dir : String) (split : Option String)
    (listing : List String) : List Sample :=
  listing.foldl
    (fun samples img_path =>
      if isImageFile img_path then samples ++ [mkSample dataset_dir img_path]
      else samples)
    []

/-- Effectful wrapper for `load_dataset`: `os.listdir` and
`dataset.add_samples` are external calls that may raise, modelled as
`Except`-valued inputs; the body has no handler, so their errors pass
through. -/
def load_dataset_run {ε : Type} (dataset_dir : String) (split : Option String)
    (listdir : Except ε (List String))
    (add_samples : List Sample → Except ε Unit) : Except ε Unit := do
  let listing ← listdir
  add_samples (load_dataset dataset_dir split listing)

/-- Accumulator-generalised shape of the `load_dataset` loop: the fold is an
append of the filtered, sample-mapped listing. -/
theorem load_dataset_foldl_eq (dataset_dir : String) (listing : List String)
    (acc : List Sample) :
    listing.foldl
      (fun samples img_path =>
        if isImageFile img_path then
          samples ++ [mkSample dataset_dir img_path]
        else samples)
      acc
    = acc ++ (listing.filter isImageFile).map (mkSample dataset_dir) := by
  induction listing generalizing acc with
  | nil => simp
  | cons p ps ih =>
    by_cases h : isImageFile p
    · simp [List.foldl_cons, List.filter_cons, h, ih]
    · simp [List.foldl_cons, List.filter_cons, h, ih]

/-- Structural form of `load_dataset`: filter the listing by extension, then
map each retained name to its sample. -/
theorem load_dataset_eq (dataset_dir : String) (split : Option String)
    (listing : List String) :
    load_dataset dataset_dir split listing
      = (listing.filter isImageFile).map (mkSample dataset_dir) := by
  simpa using load_dataset_foldl_eq dataset_dir listing []

/-- C1: every sample created by `load_dataset` comes from an enumerated
filename, and its ground-truth label is `"abnormal"` exactly when the
filename contains the substring `"abnormal"`, else `"normal"`. -/
theorem C1_label_assignment (dataset_dir : String) (split : Option String)
    (listing : List String) (s : Sample)
    (hs : s ∈ load_dataset dataset_dir split listing) :
    ∃ p ∈ listing, s.filepath = osPathJoin dataset_dir p ∧
      s.ground_truth.label
        = (if pyIn "abnormal" p then "abnormal" else "normal") := by
  rw [load_dataset_eq] at hs
  rcases List.mem_map.mp hs with ⟨p, hp, rfl⟩
  exact ⟨p, (List.mem_filter.mp hp).1, rfl, rfl⟩

/-- Witness for C1 on the one-file listing `["abnormal_1.jpg"]`. -/
theorem C1_label_assignment_witness :
    (Sample.mk "d/abnormal_1.jpg" (Classification.mk "abnormal")
        ∈ load_dataset "d" none ["abnormal_1.jpg"]) ∧
    ∃ p ∈ ["abnormal_1.jpg"],
      (Sample.mk "d/abnormal_1.jpg" (Classification.mk "abnormal")).filepath
          = osPathJoin "d" p ∧
      (Sample.mk "d/abnormal_1.jpg"
          (Classification.mk "abnormal")).ground_truth.label
        = (if pyIn "abnormal" p then "abnormal" else "normal") :=
  ⟨by decide, C1_label_assignment "d" none ["abnormal_1.jpg"] _ (by decide)⟩

/-- C2: a listed file becomes a sample exactly when its name ends in
`".jpg"` or `".png"`: the samples are the extension-filtered listing mapped
through the sample constructor, and the filter is precisely the two
`endswith` tests. -/
theorem C2_extension_filtering (dataset_dir : String) (split : Option String)
    (listing : List String) :
    load_dataset dataset_dir split listing
        = (listing.filter isImageFile).map (mkSample dataset_dir) ∧
    ∀ p, isImageFile p = (pyEndsWith p ".jpg" || pyEndsWith p ".png") :=
  ⟨load_dataset_eq dataset_dir split listing, fun _ => rfl⟩

/-- C3: the number of samples passed to `dataset.add_samples` equals the
number of listing entries ending in `".jpg"` or `".png"`. -/
theorem C3_sample_count (dataset_dir : String) (split : Option String)
    (listing : List String) :
    (load_dataset dataset_dir split listing).length
      = (listing.filter
          (fun p => pyEndsWith p ".jpg" || pyEndsWith p ".png")).length := by
  rw [load_dataset_eq, List.length_map]
  rfl

/-- Counterexample to C4 as stated: for `split = some ""` the split is given,
yet the prepared path is `dataset_dir` itself, not
`os.path.join (dataset_dir, split)` (which appends a separator). -/
theorem C4_counterexample :
    ¬ ((download_and_prepare "data" (some "")).dataset_path
        = osPathJoin "data" "") := by decide

/-- C4 (amended): the prepared dataset path is
`os.path.join (dataset_dir, split)` when the given split is non-empty, and
`dataset_dir` itself when the split is `None` or empty, because Python's
`if split:` tests truthiness; this conditional is the function's only
branching. -/
theorem C4_split_path (dataset_dir : String) (s : String) (h : ¬ s = "") :
    (download_and_prepare dataset_dir (some s)).dataset_path
        = osPathJoin dataset_dir s ∧
    (download_and_prepare dataset_dir none).dataset_path = dataset_dir ∧
    (download_and_prepare dataset_dir (some "")).dataset_path = dataset_dir := by
  refine ⟨?_, rfl, rfl⟩
  simp [download_and_prepare, h]

/-- Witness for C4 (amended) at `dataset_dir = "data"`, `split = "train"`. -/
theorem C4_split_path_witness :
    ¬ ("train" : String) = "" ∧
    ((download_and_prepare "data" (some "train")).dataset_path
        = osPathJoin "data" "train" ∧
     (download_and_prepare "data" none).dataset_path = "data" ∧
     (download_and_prepare "data" (some "")).dataset_path = "data") :=
  ⟨by decide, C4_split_path "data" "train" (by decide)⟩

/-- C8: `download_and_prepare` returns the constant triple
`(ImageClassificationDirectoryTree, 188, ["abnormal", "normal"])` for every
`dataset_dir` and `split`; in particular `num_samples = 188` is independent
of any directory contents (the function never inspects a listing). -/
theorem C8_constant_return (dataset_dir : String) (split : Option String) :
    (download_and_prepare dataset_dir split).dataset_type
        = DatasetType.ImageClassificationDirectoryTree ∧
    (download_and_prepare dataset_dir split).num_samples = 188 ∧
    (download_and_prepare dataset_dir split).classes = ["abnormal", "normal"] :=
  ⟨rfl, rfl, rfl⟩

/-- C9: `load_dataset` never reads its `split` argument: two calls differing
only in `split` produce the same samples, and the effectful run (listing the
same `dataset_dir`, calling the same `add_samples`) is identical. -/
theorem C9_split_unused {ε : Type} (dataset_dir : String)
    (split1 split2 : Option String) (listing : List String)
    (listdir : Except ε (List String))
    (add_samples : List Sample → Except ε Unit) :
    load_dataset dataset_dir split1 listing
        = load_dataset dataset_dir split2 listing ∧
    load_dataset_run dataset_dir split1 listdir add_samples
        = load_dataset_run dataset_dir split2 listdir add_samples :=
  ⟨rfl, rfl⟩

/-- C10: the samples are a sublist of the listing mapped through the sample
constructor — so they appear in listing order — and every sample's filepath
is the join of `dataset_dir` with its listing entry. -/
theorem C10_filepath_and_order (dataset_dir : String) (split : Option String)
    (listing : List String) :
    (∃ sub : List String, List.Sublist sub listing ∧
        load_dataset dataset_dir split listing
          = sub.map (mkSample dataset_dir)) ∧
    ∀ s ∈ load_dataset dataset_dir split listing,
      ∃ p ∈ listing, s.filepath = osPathJoin dataset_dir p := by
  constructor
  · exact ⟨listing.filter isImageFile, List.filter_sublist listing,
      load_dataset_eq dataset_dir split listing⟩
  · intro s hs
    rw [load_dataset_eq] at hs
    rcases List.mem_map.mp hs with ⟨p, hp, rfl⟩
    exact ⟨p, (List.mem_filter.mp hp).1, rfl⟩

/-- Witness for C10 on the one-file listing `["a.jpg"]`. -/
theorem C10_filepath_and_order_witness :
    (Sample.mk "d/a.jpg" (Classification.mk "normal")
        ∈ load_dataset "d" none ["a.jpg"]) ∧
    ∃ p ∈ ["a.jpg"],
      (Sample.mk "d/a.jpg" (Classification.mk "normal")).filepath
        = osPathJoin "d" p :=
  ⟨by decide, (C10_filepath_and_order "d" none ["a.jpg"]).2 _ (by decide)⟩

/-- A FiftyOne sample of the segmentation dataset in
`getting-started-coffee/training_notes.py`: its `filepath` plus the
`flash_predictions` field the script sets (absent before the merge). -/
structure SegSample (α : Type) where
  filepath : String
  flash_predictions : Option α
deriving DecidableEq, Repr

/-- One prediction returned by `trainer.predict` with
`FiftyOneSegmentationLabelsOutput`: a record with a `"filepath"` key and a
`"predictions"` key, the latter of opaque payload type `α`. -/
structure FlashPrediction (α : Type) where
  filepath : String
  predictions : α
deriving DecidableEq, Repr

/-- Python dict assignment `d[k] = v` on an insertion-ordered association
list with unique keys: an existing key keeps its position and gets the new
value, a new key is appended at the end. -/
def dictInsert {α : Type} : List (String × α) → String → α → List (String × α)
  | [], k, v => [(k, v)]
  | kv :: rest, k, v =>
      if kv.1 == k then (k, v) :: rest else kv :: dictInsert rest k v

/-- Python dict lookup `d[k]` on the association-list model: the value at
the first matching key, if any. -/
def dictLookup {α : Type} : List (String × α) → String → Option α
  | [], _ => none
  | kv :: rest, k => if kv.1 == k then some kv.2 else dictLookup rest k

/-- The dict comprehension on line 71 of `training_notes.py`:
each prediction of the flattened list contributes the entry
`p ["filepath"] ↦ p ["predictions"]`, later entries overwriting earlier
ones with the same filepath. -/
def predictions_mapping {α : Type} (preds : List (FlashPrediction α)) :
    List (String × α) :=
  preds.foldl (fun d p => dictInsert d p.filepath p.predictions) []

/-- Modelled from the spec: FiftyOne's `Dataset.set_values` call on line 74
of `training_notes.py` with `key_field="filepath"` — the library itself is
external to the repository — merges the mapping into the dataset via a keyed
update: each sample whose `filepath` is a key of the mapping receives the
mapped value in its `flash_predictions` field; other samples are unchanged. -/
def set_values {α : Type} (ds : List (SegSample α))
    (field_values : List (String × α)) : List (SegSample α) :=
  ds.map fun s =>
    match dictLookup field_values s.filepath with
    | some v => { s with flash_predictions := some v }
    | none => s

/-- The predictions of the last element of `preds` whose filepath is `k`,
if any: the reference value a Python dict comprehension assigns to key `k`. -/
def lastMatch {α : Type} : List (FlashPrediction α) → String → Option α
  | [], _ => none
  | p :: rest, k =>
      match lastMatch rest k with
      | some v => some v
      | none => if p.filepath == k then some p.predictions else none

/-- Looking up a key right after `dictInsert` yields the inserted value, and
any other key is unaffected. -/
theorem dictLookup_dictInsert {α : Type} (d : List (String × α))
    (k0 k : String) (v0 : α) :
    dictLookup (dictInsert d k0 v0) k
      = if k0 == k then some v0 else dictLookup d k := by
  induction d with
  | nil => simp [dictInsert, dictLookup]
  | cons kv rest ih =>
    by_cases h : kv.1 = k0
    · by_cases hkk : k0 = k
      · simp [dictInsert, dictLookup, h, hkk]
      · simp [dictInsert, dictLookup, h, hkk]
    · by_cases hkvk : kv.1 = k
      · have hkk : ¬ k0 = k := fun hc => h (hkvk.trans hc.symm)
        have hkk2 : ¬ k = k0 := fun hc => hkk hc.symm
        simp [dictInsert, dictLookup, h, hkvk, hkk, hkk2]
      · simp [dictInsert, dictLookup, h, hkvk, ih]

/-- Folding dict insertions of a prediction list over any starting dict:
lookup yields the last matching prediction, falling back to the start. -/
theorem dictLookup_foldl {α : Type} (preds : List (FlashPrediction α))
    (d : List (String × α)) (k : String) :
    dictLookup
        (preds.foldl (fun d p => dictInsert d p.filepath p.predictions) d) k
      = match lastMatch preds k with
        | some v => some v
        | none => dictLookup d k := by
  induction preds generalizing d with
  | nil => simp [lastMatch]
  | cons p rest ih =>
    rw [List.foldl_cons, ih, lastMatch]
    cases hrest : lastMatch rest k with
    | some v => simp
    | none =>
      rw [dictLookup_dictInsert]
      by_cases hp : p.filepath == k
      · simp [hp]
      · simp [hp]

/-- Lookup in the comprehension-built mapping is the last matching
prediction of the flattened list. -/
theorem dictLookup_predictions_mapping {α : Type}
    (preds : List (FlashPrediction α)) (k : String) :
    dictLookup (predictions_mapping preds) k = lastMatch preds k := by
  rw [predictions_mapping, dictLookup_foldl]
  cases lastMatch preds k <;> simp [dictLookup]

/-- Translation of the top-level statement sequence of
`getting-started-coffee/training_notes.py`.  Each external library call is
an `Except`-valued parameter (in source order: `download_data`,
`fo.Dataset.from_dir`, `dataset.take (5)`,
`SemanticSegmentationData.from_fiftyone`, the `SemanticSegmentation`
constructor, the `Trainer` constructor, `trainer.finetune`,
`trainer.save_checkpoint`, `trainer.predict`, `dataset.set_values`,
`fo.launch_app`); the flattening of the prediction batches and the dict
comprehension are the script's own pure computations.  The script has no
handler, so every error short-circuits the chain. -/
def training_script_run {ε α Dm M T S : Type}
    (download_data : Except ε Unit)
    (from_dir : Except ε (List (SegSample α)))
    (take : List (SegSample α) → Except ε (List (SegSample α)))
    (from_fiftyone :
      List (SegSample α) → List (SegSample α) → Except ε Dm)
    (semantic_segmentation : Dm → Except ε M)
    (mk_trainer : Except ε T)
    (finetune : T → M → Dm → Except ε Unit)
    (save_checkpoint : T → String → Except ε Unit)
    (predict : T → M → Dm → Except ε (List (List (FlashPrediction α))))
    (set_values_op :
      List (SegSample α) → List (String × α) → Except ε (List (SegSample α)))
    (launch_app : List (SegSample α) → Except ε S) :
    Except ε (List (SegSample α) × S) := do
  let _ ← download_data
  let dataset ← from_dir
  let predict_dataset ← take dataset
  let datamodule ← from_fiftyone dataset predict_dataset
  let model ← semantic_segmentation datamodule
  let trainer ← mk_trainer
  let _ ← finetune trainer model datamodule
  let _ ← save_checkpoint trainer "/tmp/semantic_segmentation_model.pt"
  let preds ← predict trainer model datamodule
  let flat := List.flatten preds
  let mapping := predictions_mapping flat
  let dataset2 ← set_values_op dataset mapping
  let session ← launch_app predict_dataset
  return (dataset2, session)

/-- C5: the script flattens the per-batch prediction lists, builds the
filepath-to-predictions dictionary from the flattened list, and merges it
into the dataset keyed on `filepath`: when every external call succeeds the
run produces exactly `set_values` of the comprehension-built mapping, and
that merge gives each sample the predictions of the last flattened
prediction carrying its filepath. -/
theorem C5_prediction_mapping {α Dm M T S : Type} (ds pds : List (SegSample α))
    (dm : Dm) (m : M) (t : T) (pr : List (List (FlashPrediction α))) (ss : S) :
    @training_script_run Unit α Dm M T S (Except.ok ()) (Except.ok ds)
        (fun _ => Except.ok pds) (fun _ _ => Except.ok dm)
        (fun _ => Except.ok m) (Except.ok t) (fun _ _ _ => Except.ok ())
        (fun _ _ => Except.ok ()) (fun _ _ _ => Except.ok pr)
        (fun d mp => Except.ok (set_values d mp)) (fun _ => Except.ok ss)
      = Except.ok (set_values ds (predictions_mapping (List.flatten pr)), ss) ∧
    set_values ds (predictions_mapping (List.flatten pr))
      = ds.map fun s =>
          match lastMatch (List.flatten pr) s.filepath with
          | some v => { s with flash_predictions := some v }
          | none => s := by
  constructor
  · rfl
  · simp only [set_values, dictLookup_predictions_mapping]

/-- C6: neither script has a handler: an error raised by `os.listdir` or
`dataset.add_samples` leaves `load_dataset` unchanged as that error, and an
error raised at any of the eleven external calls of the training script
short-circuits the whole run with exactly that error, whatever the
surrounding successful stages returned. -/
theorem C6_error_propagation {ε α Dm M T S : Type} (e : ε)
    (dataset_dir : String) (split : Option String) (listing : List String)
    (add_samples : List Sample → Except ε Unit)
    (ds pds : List (SegSample α)) (dm : Dm) (m : M) (t : T)
    (pr : List (List (FlashPrediction α))) (ds2 : List (SegSample α))
    (a2 : Except ε (List (SegSample α)))
    (a3 : List (SegSample α) → Except ε (List (SegSample α)))
    (a4 : List (SegSample α) → List (SegSample α) → Except ε Dm)
    (a5 : Dm → Except ε M)
    (a6 : Except ε T)
    (a7 : T → M → Dm → Except ε Unit)
    (a8 : T → String → Except ε Unit)
    (a9 : T → M → Dm → Except ε (List (List (FlashPrediction α))))
    (a10 : List (SegSample α) → List (String × α) →
      Except ε (List (SegSample α)))
    (a11 : List (SegSample α) → Except ε S) :
    (load_dataset_run dataset_dir split (Except.error e) add_samples
        = Except.error e) ∧
    (load_dataset_run dataset_dir split (Except.ok listing)
        (fun _ => Except.error e) = Except.error e) ∧
    (training_script_run (Except.error e) a2 a3 a4 a5 a6 a7 a8 a9 a10 a11
        = Except.error e) ∧
    (training_script_run (Except.ok ()) (Except.error e) a3 a4 a5 a6 a7 a8 a9
        a10 a11 = Except.error e) ∧
    (training_script_run (Except.ok ()) (Except.ok ds) (fun _ => Except.error e)
        a4 a5 a6 a7 a8 a9 a10 a11 = Except.error e) ∧
    (training_script_run (Except.ok ()) (Except.ok ds) (fun _ => Except.ok pds)
        (fun _ _ => Except.error e) a5 a6 a7 a8 a9 a10 a11
        = Except.error e) ∧
    (training_script_run (Except.ok ()) (Except.ok ds) (fun _ => Except.ok pds)
        (fun _ _ => Except.ok dm) (fun _ => Except.error e) a6 a7 a8 a9 a10 a11
        = Except.error e) ∧
    (training_script_run (Except.ok ()) (Except.ok ds) (fun _ => Except.ok pds)
        (fun _ _ => Except.ok dm) (fun _ => Except.ok m) (Except.error e)
        a7 a8 a9 a10 a11 = Except.error e) ∧
    (training_script_run (Except.ok ()) (Except.ok ds) (fun _ => Except.ok pds)
        (fun _ _ => Except.ok dm) (fun _ => Except.ok m) (Except.ok t)
        (fun _ _ _ => Except.error e) a8 a9 a10 a11 = Except.error e) ∧
    (training_script_run (Except.ok ()) (Except.ok ds) (fun _ => Except.ok pds)
        (fun _ _ => Except.ok dm) (fun _ => Except.ok m) (Except.ok t)
        (fun _ _ _ => Except.ok ()) (fun _ _ => Except.error e) a9 a10 a11
        = Except.error e) ∧
    (training_script_run (Except.ok ()) (Except.ok ds) (fun _ => Except.ok pds)
        (fun _ _ => Except.ok dm) (fun _ => Except.ok m) (Except.ok t)
        (fun _ _ _ => Except.ok ()) (fun _ _ => Except.ok ())
        (fun _ _ _ => Except.error e) a10 a11 = Except.error e) ∧
    (training_script_run (Except.ok ()) (Except.ok ds) (fun _ => Except.ok pds)
        (fun _ _ => Except.ok dm) (fun _ => Except.ok m) (Except.ok t)
        (fun _ _ _ => Except.ok ()) (fun _ _ => Except.ok ())
        (fun _ _ _ => Except.ok pr) (fun _ _ => Except.error e) a11
        = Except.error e) ∧
    (training_script_run (Except.ok ()) (Except.ok ds) (fun _ => Except.ok pds)
        (fun _ _ => Except.ok dm) (fun _ => Except.ok m) (Except.ok t)
        (fun _ _ _ => Except.ok ()) (fun _ _ => Except.ok ())
        (fun _ _ _ => Except.ok pr) (fun _ _ => Except.ok ds2)
        (fun _ => (Except.error e : Except ε S)) = Except.error e) :=
  ⟨rfl, rfl, rfl, rfl, rfl, rfl, rfl, rfl, rfl, rfl, rfl, rfl, rfl⟩

/-- C7: the checkpoint is saved to the fixed path
`"/tmp/semantic_segmentation_model.pt"` whatever the dataset, datamodule,
model and trainer are (first conjunct: a save that raises its own path
argument reports exactly that string); a failure of `finetune` preempts the
save (second conjunct), and a failing save preempts `predict` (third
conjunct), so the save happens after fine-tuning and before prediction. -/
theorem C7_checkpoint_path {α Dm M T S : Type} (ds pds : List (SegSample α))
    (dm : Dm) (m : M) (t : T)
    (a9 : T → M → Dm → Except String (List (List (FlashPrediction α))))
    (a10 : List (SegSample α) → List (String × α) →
      Except String (List (SegSample α)))
    (a11 : List (SegSample α) → Except String S) :
    (training_script_run (Except.ok ()) (Except.ok ds) (fun _ => Except.ok pds)
        (fun _ _ => Except.ok dm) (fun _ => Except.ok m) (Except.ok t)
        (fun _ _ _ => Except.ok ()) (fun _ p => Except.error p) a9 a10 a11
        = Except.error "/tmp/semantic_segmentation_model.pt") ∧
    (training_script_run (Except.ok ()) (Except.ok ds) (fun _ => Except.ok pds)
        (fun _ _ => Except.ok dm) (fun _ => Except.ok m) (Except.ok t)
        (fun _ _ _ => Except.error "finetune raised")
        (fun _ p => Except.error p) a9 a10 a11
        = Except.error "finetune raised") ∧
    (training_script_run (Except.ok ()) (Except.ok ds) (fun _ => Except.ok pds)
        (fun _ _ => Except.ok dm) (fun _ => Except.ok m) (Except.ok t)
        (fun _ _ _ => Except.ok ()) (fun _ p => Except.error p)
        (fun _ _ _ => Except.error "predict raised") a10 a11
        = Except.error "/tmp/semantic_segmentation_model.pt") :=
  ⟨rfl, rfl, rfl⟩
